import Mathlib

/-!
Verification of the route playback and interpolation engine of the
vehicle-tracker app (`src/VehicleMap.jsx`).

The component state is embedded shallowly:

* `Point` is the Waypoint record `{lat, lng, timestamp}`; coordinates are
  exact rationals (the JS numbers, absent rounding).
* `JsPos` distinguishes the two shapes the `interpolatedPos` state variable
  takes in the code: a `{lat, lng}` record, or the two-element array that the
  load effect stores (line 68 of `VehicleMap.jsx`).
* `AppState` gathers the React state variables `routeData`, `currentIndex`,
  `isPlaying`, `interpolatedPos`, plus the interval-local `step` counter.
  `step` is a local variable of the closure passed to `setInterval`; every
  (re-)arming of the interval — entering play, or the effect re-running after
  `currentIndex` changes — starts it at 0, and tearing the interval down
  discards it.  `togglePlay` and `resetSimulation` therefore set `step := 0`
  in the model.
* `tick` is the `setInterval` callback (lines 88–101); it fires exactly when
  an interval is armed, i.e. when the animation effect's guards
  (`isPlaying`, `routeData.length >= 2`, `start`/`end` defined) hold.
-/

/-- A Waypoint: `{ lat, lng, timestamp }`. -/
structure Point where
  lat : ℚ
  lng : ℚ
  timestamp : ℤ
deriving DecidableEq, Repr

/-- The two runtime shapes of the `interpolatedPos` state variable: a
`{lat, lng}` record (initial state, tick updates, reset) or a two-element
array `[lat, lng]` (what the load effect stores). -/
inductive JsPos where
  | record (lat lng : ℚ)
  | array (fst snd : ℚ)
deriving DecidableEq, Repr

/-- JS property access `pos.lat`: defined only on the record shape;
`undefined` (here `none`) on the array shape. -/
def latField : JsPos → Option ℚ
  | .record lat _ => some lat
  | .array _ _ => none

/-- JS property access `pos.lng`. -/
def lngField : JsPos → Option ℚ
  | .record _ lng => some lng
  | .array _ _ => none

/-- `INITIAL_CENTER = [17.4, 78.495]` (line 9). -/
def INITIAL_CENTER : ℚ × ℚ := (17.4, 78.495)

/-- The React component state of `VehicleMap`. -/
structure AppState where
  route : List Point
  currentIndex : ℕ
  step : ℕ
  pos : JsPos
  isPlaying : Bool
deriving DecidableEq, Repr

/-- `steps = 20` ticks per segment (line 85). -/
def steps : ℕ := 20

/-- `intervalTime = 100` ms per step (line 86); pacing only, no effect on the
state transitions. -/
def intervalTime : ℕ := 100

/-- Out-of-bounds JS indexing yields `undefined`; the transitions below only
index within bounds (guarded by `!start || !end` in the code), so a default
point stands in for the unreachable out-of-bounds case. -/
def dfltPoint : Point := ⟨0, 0, 0⟩

/-- State before the load effect has run: `useState` initializers
(lines 52–59). -/
def initState : AppState :=
  { route := []
    currentIndex := 0
    step := 0
    pos := .record INITIAL_CENTER.1 INITIAL_CENTER.2
    isPlaying := false }

/-- JS `x || d` on an optional number: `undefined`, and the falsy value `0`,
fall through to the default. -/
def jsOrElse (x : Option ℚ) (d : ℚ) : ℚ :=
  match x with
  | none => d
  | some v => if v = 0 then d else v

/-- The load effect (lines 64–74): stores the fetched route and sets
`interpolatedPos` to the two-element ARRAY
`[data[0]?.lat || INITIAL_CENTER[0], data[0]?.lng || INITIAL_CENTER[1]]`. -/
def loadState (data : List Point) : AppState :=
  { initState with
      route := data
      pos := .array (jsOrElse (data.head?.map Point.lat) INITIAL_CENTER.1)
                    (jsOrElse (data.head?.map Point.lng) INITIAL_CENTER.2) }

/-- One firing of the `setInterval` callback (lines 88–101).  The interval is
armed exactly when the animation effect's guards pass (lines 77–82):
`isPlaying`, `routeData.length >= 2`, and `start = routeData[currentIndex]`
and `end = routeData[currentIndex + 1]` both defined — the latter two
conditions amount to `currentIndex + 1 < routeData.length`.  When no interval
is armed a tick cannot fire, so `tick` is the identity there.  The callback
increments `step`, stores the interpolated `{lat, lng}` record, and on
`step >= steps` advances `currentIndex` (clamped so it never passes
`routeData.length - 2`) and resets `step` to 0 — the reset also models the
effect re-arming the interval after `currentIndex` changes. -/
def tick (s : AppState) : AppState :=
  if s.isPlaying = true ∧ 2 ≤ s.route.length ∧ s.currentIndex + 1 < s.route.length then
    let start := s.route.getD s.currentIndex dfltPoint
    let stop := s.route.getD (s.currentIndex + 1) dfltPoint
    let st := s.step + 1
    let lat := start.lat + ((stop.lat - start.lat) * (st : ℚ)) / (steps : ℚ)
    let lng := start.lng + ((stop.lng - start.lng) * (st : ℚ)) / (steps : ℚ)
    if steps ≤ st then
      { s with
          pos := .record lat lng
          currentIndex :=
            if s.currentIndex + 1 < s.route.length - 1 then s.currentIndex + 1
            else s.currentIndex
          step := 0 }
    else
      { s with pos := .record lat lng, step := st }
  else s

/-- `togglePlay` (line 122): flips `isPlaying` unconditionally.  The armed
interval (if any) is torn down by the effect cleanup and any re-arming starts
its local `step` at 0, hence `step := 0`. -/
def togglePlay (s : AppState) : AppState :=
  { s with isPlaying := !s.isPlaying, step := 0 }

/-- `resetSimulation` (lines 123–128): stop playing, index back to 0, and
restore the `{lat, lng}` record of `routeData[0]` when the route is
non-empty. -/
def resetSimulation (s : AppState) : AppState :=
  { s with
      isPlaying := false
      currentIndex := 0
      step := 0
      pos :=
        if 0 < s.route.length then
          .record (s.route.getD 0 dfltPoint).lat (s.route.getD 0 dfltPoint).lng
        else s.pos }

/-- The marker render guard (lines 145, 167–174): the vehicle marker is
rendered iff `routeData.length > 0` and both `interpolatedPos?.lat` and
`interpolatedPos?.lng` are defined. -/
def markerRendered (s : AppState) : Bool :=
  decide (0 < s.route.length) && (latField s.pos).isSome && (lngField s.pos).isSome

/-- The user/timer events that drive the component after load. -/
inductive Cmd where
  | tick
  | toggle
  | reset
deriving DecidableEq, Repr

/-- Apply one event. -/
def applyCmd : Cmd → AppState → AppState
  | .tick, s => tick s
  | .toggle, s => togglePlay s
  | .reset, s => resetSimulation s

/-- Run a sequence of events. -/
def runCmds : List Cmd → AppState → AppState
  | [], s => s
  | c :: cs, s => runCmds cs (applyCmd c s)

/-- Iterated ticks. -/
def tickN : ℕ → AppState → AppState
  | 0, s => s
  | n + 1, s => tickN n (tick s)

/-- The two-waypoint route of the spec's scenario (§8):
`[(17.40, 78.49), (17.41, 78.50)]`. -/
def route2 : List Point := [⟨17.40, 78.49, 0⟩, ⟨17.41, 78.50, 1⟩]

/-- A one-point route, for the short-route edge cases. -/
def route1 : List Point := [⟨17.40, 78.49, 0⟩]

/-- A three-point route ending in a zero-length segment: the second and third
waypoints coincide. -/
def routeDup : List Point := [⟨17.40, 78.49, 0⟩, ⟨17.41, 78.50, 1⟩, ⟨17.41, 78.50, 2⟩]

/-!
## Interpolator and heading

`getRotationAngle` (lines 44–48) is `Math.atan2(dx, dy) * 180 / Math.PI` with
`dx = next.lng - prev.lng`, `dy = next.lat - prev.lat`.  `atan2` below is the
IEEE/JS `Math.atan2` on real arguments (signed zeros collapse to the single
real 0, on which JS returns `+0`, matching the final branch).  Angles are
real-valued, so these two definitions are the only noncomputable ones.
-/

/-- JS `Math.atan2 y x` for real arguments: the angle of the vector `(x, y)`
in (−π, π], with `atan2 0 0 = 0` as JS computes for `+0, +0` inputs. -/
noncomputable def atan2 (y x : ℝ) : ℝ :=
  if 0 < x then Real.arctan (y / x)
  else if x < 0 then
    if 0 ≤ y then Real.arctan (y / x) + Real.pi else Real.arctan (y / x) - Real.pi
  else if 0 < y then Real.pi / 2
  else if y < 0 then -(Real.pi / 2)
  else 0

/-- `getRotationAngle` (lines 44–48): bearing in degrees, longitude delta as
the x-component of the atan2 and latitude delta as the y-component. -/
noncomputable def getRotationAngle (prev pt : Point) : ℝ :=
  atan2 ((pt.lng : ℝ) - (prev.lng : ℝ)) ((pt.lat : ℝ) - (prev.lat : ℝ)) * 180 / Real.pi

/-- Modelled from the spec §4.3 wording only, for comparison with the tick
update: `position(route, segmentIndex, progress)` with
`lat = start.lat + (end.lat - start.lat) * progress`, same for `lng`. -/
def positionSpec (a b : Point) (progress : ℚ) : ℚ × ℚ :=
  (a.lat + (b.lat - a.lat) * progress, a.lng + (b.lng - a.lng) * progress)

/-!
## Route Source (`fetchRouteData`, lines 19–41)

The `try` block fetches `public/dummy-route.json`, parses it, and maps each
`{latitude, longitude, timestamp}` record to a Waypoint.  Any exception —
network failure, malformed JSON, or a payload with no `.map` — lands in the
`catch` block, which decodes the embedded polyline (standard Google polyline
encoding, precision 5, as the `@mapbox/polyline` dependency implements) and
stamps each decoded pair with `Date.now()`.  The primary outcome is modelled
as `Option (List PrimRecord)`: `some data` for a successfully parsed array,
`none` for any thrown error; `Date.now()` is the parameter `now`.
-/

/-- A record of the primary JSON payload: `{latitude, longitude, timestamp}`. -/
structure PrimRecord where
  latitude : ℚ
  longitude : ℚ
  timestamp : ℤ
deriving DecidableEq, Repr

/-- The statically embedded encoded polyline (line 33). -/
def encodedRoute : String :=
  "svu_GotssPp@`@n@r@rAjA`@f@x@r@l@`@f@pA`A`@l@p@v@f@v@p@r@x@b@dA|@`@l@j@"

/-- Zigzag decoding of one varint value: odd values encode negative deltas
(`~(n >> 1) = -(n + 1) / 2`), even values positive ones (`n >> 1`). -/
def zigzag (n : ℕ) : ℤ :=
  if n % 2 = 1 then -(((n : ℤ) + 1) / 2) else (n : ℤ) / 2

/-- Parse one varint chunk of the polyline encoding: each character code,
minus 63, contributes its low 5 bits; a value `< 32` ends the chunk. -/
def parseChunk : ℕ → ℕ → List ℕ → Option (ℤ × List ℕ)
  | _, _, [] => none
  | shift, acc, c :: rest =>
    let b := c - 63
    let acc2 := acc + b % 32 * 2 ^ shift
    if b < 32 then some (zigzag acc2, rest) else parseChunk (shift + 5) acc2 rest

/-- Main polyline decode loop: alternately parse a latitude and a longitude
delta, accumulate, and emit `(lat, lng)` scaled down by the precision factor
`10^5`.  `fuel` bounds the iteration count (each step consumes characters). -/
def decodeLoop : ℕ → ℤ → ℤ → List ℕ → List (ℚ × ℚ)
  | 0, _, _, _ => []
  | fuel + 1, lat, lng, cs =>
    match parseChunk 0 0 cs with
    | none => []
    | some (dlat, cs2) =>
      match parseChunk 0 0 cs2 with
      | none => []
      | some (dlng, cs3) =>
        (((lat + dlat : ℤ) : ℚ) / 100000, ((lng + dlng : ℤ) : ℚ) / 100000)
          :: decodeLoop fuel (lat + dlat) (lng + dlng) cs3

/-- `polyline.decode` (precision 5) on a string, as a list of `(lat, lng)`
pairs. -/
def polylineDecode (str : String) : List (ℚ × ℚ) :=
  decodeLoop (str.data.map Char.toNat).length 0 0 (str.data.map Char.toNat)

/-- `fetchRouteData` (lines 19–41): on a successfully parsed primary payload,
map the records to Waypoints; on any thrown failure, decode the embedded
polyline and stamp every point with the current wall-clock time `now`. -/
def fetchRouteData (primary : Option (List PrimRecord)) (now : ℤ) : List Point :=
  match primary with
  | some data => data.map fun p => ⟨p.latitude, p.longitude, p.timestamp⟩
  | none => (polylineDecode encodedRoute).map fun q => ⟨q.1, q.2, now⟩

/-!
## Helper lemmas
-/

/-- No event changes the loaded route. -/
theorem applyCmd_route (c : Cmd) (s : AppState) : (applyCmd c s).route = s.route := by
  cases c <;> simp only [applyCmd, tick, togglePlay, resetSimulation] <;> split_ifs <;> rfl

/-- A run of events never changes the loaded route. -/
theorem runCmds_route (cmds : List Cmd) (s : AppState) :
    (runCmds cmds s).route = s.route := by
  induction cmds generalizing s with
  | nil => rfl
  | cons c cs ih => rw [runCmds, ih, applyCmd_route]

/-- A tick never moves `currentIndex` past `route.length - 2`. -/
theorem tick_currentIndex_le (s : AppState) (h : s.currentIndex ≤ s.route.length - 2) :
    (tick s).currentIndex ≤ s.route.length - 2 := by
  simp only [tick]
  split_ifs <;> simp_all <;> omega

/-- A tick never decreases `currentIndex`. -/
theorem tick_currentIndex_ge (s : AppState) : s.currentIndex ≤ (tick s).currentIndex := by
  simp only [tick]
  split_ifs <;> simp

/-- The segment-index bound is preserved along any run of events. -/
theorem runCmds_currentIndex_le (cmds : List Cmd) (s : AppState)
    (h : s.currentIndex ≤ s.route.length - 2) :
    (runCmds cmds s).currentIndex ≤ s.route.length - 2 := by
  induction cmds generalizing s with
  | nil => exact h
  | cons c cs ih =>
      rw [runCmds]
      have h2 : (applyCmd c s).currentIndex ≤ (applyCmd c s).route.length - 2 := by
        rw [applyCmd_route]
        cases c with
        | tick => exact tick_currentIndex_le s h
        | toggle => exact h
        | reset => exact Nat.zero_le _
      simpa [applyCmd_route] using ih (applyCmd c s) h2

/-- Stamping a decoded pair list with a fixed timestamp gives only points
carrying that timestamp. -/
theorem all_timestamp_stamped (l : List (ℚ × ℚ)) (now : ℤ) :
    ((l.map fun q => Point.mk q.1 q.2 now).all fun p => p.timestamp == now) = true := by
  induction l with
  | nil => rfl
  | cons q l ih =>
      simp only [List.map_cons, List.all_cons, beq_self_eq_true, Bool.true_and]
      exact ih

/-- The embedded polyline decodes to a non-empty list. -/
theorem polylineDecode_encodedRoute_ne_nil : polylineDecode encodedRoute ≠ [] := by decide

/-- Iterated ticks, unfolded from the back. -/
theorem tickN_succ (n : ℕ) (s : AppState) : tickN (n + 1) s = tick (tickN n s) := by
  induction n generalizing s with
  | zero => rfl
  | succ n ih =>
      calc tickN (n + 1 + 1) s = tickN (n + 1) (tick s) := rfl
        _ = tick (tickN n (tick s)) := ih (tick s)
        _ = tick (tickN (n + 1) s) := rfl

/-!
## Claims
-/

/-- C2 counterexample: a successfully fetched but empty primary payload is
returned as an empty route — the fallback is NOT used (only a thrown failure
reaches the `catch` block), even though the fallback route would be
non-empty. -/
theorem c2_empty_primary_no_fallback :
    fetchRouteData (some []) 0 = [] ∧ fetchRouteData none 0 ≠ [] := by
  refine ⟨rfl, ?_⟩
  simp only [fetchRouteData, ne_eq, List.map_eq_nil_iff]
  exact polylineDecode_encodedRoute_ne_nil

/-- C2 (amended): the fallback runs exactly on a thrown primary failure
(network error or malformed payload); it decodes the embedded polyline into a
non-empty route and stamps every point with the current wall-clock time.  A
non-empty successful primary payload also yields a non-empty route; an empty
successful payload yields an empty route without the fallback. -/
theorem c2_fallback_route_nonempty (now : ℤ) (data : List PrimRecord)
    (h : data ≠ []) :
    fetchRouteData none now ≠ [] ∧
    ((fetchRouteData none now).all fun p => p.timestamp == now) = true ∧
    fetchRouteData (some data) now ≠ [] := by
  refine ⟨?_, ?_, ?_⟩
  · simp only [fetchRouteData, ne_eq, List.map_eq_nil_iff]
    exact polylineDecode_encodedRoute_ne_nil
  · exact all_timestamp_stamped (polylineDecode encodedRoute) now
  · simp only [fetchRouteData, ne_eq, List.map_eq_nil_iff]
    exact h

/-- C2 witness: the amended claim at `now = 0` and a one-record payload. -/
theorem c2_fallback_route_nonempty_witness :
    fetchRouteData none 0 ≠ [] ∧
    ((fetchRouteData none 0).all fun p => p.timestamp == 0) = true ∧
    fetchRouteData (some [⟨1, 2, 3⟩]) 0 ≠ [] :=
  c2_fallback_route_nonempty 0 [⟨1, 2, 3⟩] (by decide)

/-- C3 counterexample: on the degenerate pair (second and third waypoints of
`routeDup`, which coincide) `getRotationAngle` returns 0, not the previous
valid heading — the preceding non-degenerate segment has heading 45°. -/
theorem c3_degenerate_heading_zero_cex :
    (routeDup.getD 1 dfltPoint).lat = (routeDup.getD 2 dfltPoint).lat ∧
    (routeDup.getD 1 dfltPoint).lng = (routeDup.getD 2 dfltPoint).lng ∧
    getRotationAngle (routeDup.getD 1 dfltPoint) (routeDup.getD 2 dfltPoint) = 0 ∧
    getRotationAngle (routeDup.getD 0 dfltPoint) (routeDup.getD 1 dfltPoint) = 45 := by
  refine ⟨rfl, rfl, ?_, ?_⟩
  · simp [getRotationAngle, atan2, routeDup]
  · have hdx : (((routeDup.getD 1 dfltPoint).lng : ℝ) - ((routeDup.getD 0 dfltPoint).lng : ℝ))
        = 1 / 100 := by
      norm_num [routeDup]
    have hdy : (((routeDup.getD 1 dfltPoint).lat : ℝ) - ((routeDup.getD 0 dfltPoint).lat : ℝ))
        = 1 / 100 := by
      norm_num [routeDup]
    rw [getRotationAngle, hdx, hdy, atan2, if_pos (by norm_num : (0 : ℝ) < 1 / 100)]
    rw [div_self (by norm_num : (1 / 100 : ℝ) ≠ 0), Real.arctan_one]
    field_simp
    ring

/-- C3 (amended): on every zero-length segment (consecutive waypoints with
the same coordinates) `getRotationAngle` returns 0 (`atan2(0, 0) = 0`); no
carry-forward of the previous heading happens. -/
theorem c3_degenerate_heading_is_zero (p q : Point) (hlat : p.lat = q.lat)
    (hlng : p.lng = q.lng) : getRotationAngle p q = 0 := by
  simp [getRotationAngle, atan2, hlat, hlng]

/-- C3 witness: the amended claim at the degenerate pair of `routeDup`. -/
theorem c3_degenerate_heading_is_zero_witness :
    getRotationAngle (routeDup.getD 1 dfltPoint) (routeDup.getD 2 dfltPoint) = 0 :=
  c3_degenerate_heading_is_zero (routeDup.getD 1 dfltPoint) (routeDup.getD 2 dfltPoint)
    rfl rfl

/-- C6: `resetSimulation`, from any state, yields `segmentIndex = 0`,
`progress = 0` (the interval-local step counter is discarded), and
`isPlaying = false`, and restores the rendered position to the `{lat, lng}`
record of `route[0]` when the route is non-empty. -/
theorem c6_reset_restores_initial_state (s : AppState) (h : s.route ≠ []) :
    (resetSimulation s).currentIndex = 0 ∧
    (resetSimulation s).step = 0 ∧
    (resetSimulation s).isPlaying = false ∧
    (resetSimulation s).pos =
      JsPos.record (s.route.getD 0 dfltPoint).lat (s.route.getD 0 dfltPoint).lng := by
  refine ⟨rfl, rfl, rfl, ?_⟩
  simp only [resetSimulation]
  rw [if_pos (List.length_pos.mpr h)]

/-- C6 witness: reset after loading the scenario route. -/
theorem c6_reset_restores_initial_state_witness :
    (resetSimulation (loadState route2)).currentIndex = 0 ∧
    (resetSimulation (loadState route2)).step = 0 ∧
    (resetSimulation (loadState route2)).isPlaying = false ∧
    (resetSimulation (loadState route2)).pos =
      JsPos.record ((loadState route2).route.getD 0 dfltPoint).lat
        ((loadState route2).route.getD 0 dfltPoint).lng :=
  c6_reset_restores_initial_state (loadState route2) (by decide)

/-- C10: between resets the segment index is monotone — a tick never
decreases `currentIndex`, toggling play leaves it unchanged, and only
`resetSimulation` sets it back to 0. -/
theorem c10_segment_index_monotone (s : AppState) :
    s.currentIndex ≤ (tick s).currentIndex ∧
    (togglePlay s).currentIndex = s.currentIndex ∧
    (resetSimulation s).currentIndex = 0 :=
  ⟨tick_currentIndex_ge s, rfl, rfl⟩

set_option maxHeartbeats 1000000 in
/-- C1 (code evaluated at the failing input): on the scenario route with
`N = 2`, after Start and `steps * (N-1) = 20` ticks the controller is at the
last segment (`segmentIndex = 0 = N-2`) with the marker at the final waypoint
`(17.41, 78.50)` — but the interval is still armed, and tick 21 moves the
marker BACK to 1/20 of the final segment, `(17.4005, 78.4905)`: further
ticks are not no-ops, the last segment replays indefinitely. -/
theorem c1_final_segment_replays :
    (tickN 20 (togglePlay (loadState route2))).currentIndex = route2.length - 2 ∧
    (tickN 20 (togglePlay (loadState route2))).pos = JsPos.record 17.41 78.50 ∧
    (tickN 20 (togglePlay (loadState route2))).isPlaying = true ∧
    (tickN 21 (togglePlay (loadState route2))).pos = JsPos.record 17.4005 78.4905 ∧
    tickN 21 (togglePlay (loadState route2)) ≠ tickN 20 (togglePlay (loadState route2)) := by
  have hstate : tickN 20 (togglePlay (loadState route2)) =
      ⟨route2, 0, 0, JsPos.record 17.41 78.50, true⟩ := by
    norm_num [tickN, tick, togglePlay, loadState, initState, route2, steps, dfltPoint,
      List.getD, jsOrElse]
  have h21 : (tickN 21 (togglePlay (loadState route2))).pos =
      JsPos.record 17.4005 78.4905 := by
    rw [tickN_succ, hstate]
    norm_num [tick, route2, steps, dfltPoint, List.getD]
  refine ⟨by rw [hstate]; rfl, by rw [hstate], by rw [hstate], h21, ?_⟩
  intro heq
  rw [heq, hstate] at h21
  norm_num at h21

/-- C4: every tick stores exactly the spec's linear interpolation
`start + (end - start) * progress` at `progress = step/steps` between
`route[currentIndex]` and `route[currentIndex + 1]`; and on the scenario
route, after 10 of 20 ticks from Start the position is exactly the midpoint
`(17.405, 78.495)`. -/
theorem c4_position_is_linear_interpolation :
    (∀ s : AppState, s.isPlaying = true → 2 ≤ s.route.length →
        s.currentIndex + 1 < s.route.length →
        (tick s).pos =
          JsPos.record
            (positionSpec (s.route.getD s.currentIndex dfltPoint)
              (s.route.getD (s.currentIndex + 1) dfltPoint)
              (((s.step + 1 : ℕ) : ℚ) / (steps : ℚ))).1
            (positionSpec (s.route.getD s.currentIndex dfltPoint)
              (s.route.getD (s.currentIndex + 1) dfltPoint)
              (((s.step + 1 : ℕ) : ℚ) / (steps : ℚ))).2) ∧
    (tickN 10 (togglePlay (loadState route2))).pos = JsPos.record 17.405 78.495 := by
  constructor
  · intro s h1 h2 h3
    simp only [tick]
    rw [if_pos ⟨h1, h2, h3⟩]
    split_ifs <;> simp [positionSpec, mul_div_assoc]
  · norm_num [tickN, tick, togglePlay, loadState, initState, route2, steps, dfltPoint,
      List.getD, jsOrElse]

/-- C4 witness: the interpolation equation at the first tick after Start on
the scenario route. -/
theorem c4_position_is_linear_interpolation_witness :
    (tick (togglePlay (loadState route2))).pos =
      JsPos.record
        (positionSpec ((togglePlay (loadState route2)).route.getD
            (togglePlay (loadState route2)).currentIndex dfltPoint)
          ((togglePlay (loadState route2)).route.getD
            ((togglePlay (loadState route2)).currentIndex + 1) dfltPoint)
          ((((togglePlay (loadState route2)).step + 1 : ℕ) : ℚ) / (steps : ℚ))).1
        (positionSpec ((togglePlay (loadState route2)).route.getD
            (togglePlay (loadState route2)).currentIndex dfltPoint)
          ((togglePlay (loadState route2)).route.getD
            ((togglePlay (loadState route2)).currentIndex + 1) dfltPoint)
          ((((togglePlay (loadState route2)).step + 1 : ℕ) : ℚ) / (steps : ℚ))).2 :=
  c4_position_is_linear_interpolation.1 (togglePlay (loadState route2)) rfl
    (by decide) (by decide)

/-- C7: for every route with at least 2 waypoints, `segmentIndex` stays in
`[0, len(route) - 2]` in every state reachable from load by any sequence of
tick, Start/Pause and Reset events. -/
theorem c7_segment_index_bounded (route : List Point) (cmds : List Cmd)
    (_h : 2 ≤ route.length) :
    (runCmds cmds (loadState route)).currentIndex ≤ route.length - 2 := by
  have h0 : (loadState route).currentIndex ≤ (loadState route).route.length - 2 :=
    Nat.zero_le _
  simpa [loadState] using runCmds_currentIndex_le cmds (loadState route) h0

/-- C7 witness: the bound after Start and one tick on the scenario route. -/
theorem c7_segment_index_bounded_witness :
    (runCmds [Cmd.toggle, Cmd.tick] (loadState route2)).currentIndex ≤ route2.length - 2 :=
  c7_segment_index_bounded route2 [Cmd.toggle, Cmd.tick] (by decide)

/-- C8 counterexample: with an empty route (fewer than 2 waypoints), Start is
not a no-op — `togglePlay` still flips `isPlaying` from false to true, so the
playback state changes. -/
theorem c8_start_not_noop_cex :
    (loadState []).route.length < 2 ∧
    (loadState []).isPlaying = false ∧
    (togglePlay (loadState [])).isPlaying = true ∧
    togglePlay (loadState []) ≠ loadState [] := by
  refine ⟨by decide, rfl, rfl, ?_⟩
  intro heq
  have hplay : (togglePlay (loadState [])).isPlaying = (loadState []).isPlaying := by
    rw [heq]
  simp [togglePlay, loadState, initState] at hplay

/-- C8 (amended): Start always flips `isPlaying`; when the Route has fewer
than 2 waypoints it changes nothing else — `segmentIndex`, the step counter
and the position are untouched — and the animation effect arms no interval,
so a tick in the resulting state is a no-op. -/
theorem c8_start_short_route (s : AppState) (h : s.route.length < 2) :
    (togglePlay s).isPlaying = !s.isPlaying ∧
    (togglePlay s).currentIndex = s.currentIndex ∧
    (togglePlay s).step = 0 ∧
    (togglePlay s).pos = s.pos ∧
    tick (togglePlay s) = togglePlay s := by
  refine ⟨rfl, rfl, rfl, rfl, ?_⟩
  simp only [tick]
  rw [if_neg]
  rintro ⟨-, h2, -⟩
  simp only [togglePlay] at h2
  omega

/-- C8 witness: Start on a loaded one-point route. -/
theorem c8_start_short_route_witness :
    (togglePlay (loadState route1)).isPlaying = !(loadState route1).isPlaying ∧
    (togglePlay (loadState route1)).currentIndex = (loadState route1).currentIndex ∧
    (togglePlay (loadState route1)).step = 0 ∧
    (togglePlay (loadState route1)).pos = (loadState route1).pos ∧
    tick (togglePlay (loadState route1)) = togglePlay (loadState route1) :=
  c8_start_short_route (loadState route1) (by decide)

/-- C9: after the load effect completes with non-empty data (and before any
tick or reset), `interpolatedPos` is the two-element array, so its `.lat` and
`.lng` are `undefined` and the vehicle marker is not rendered; Reset — or,
once playing, a tick — replaces it with a `{lat, lng}` record. -/
theorem c9_load_stores_array_marker_hidden (data : List Point) (h : data ≠ []) :
    latField (loadState data).pos = none ∧
    lngField (loadState data).pos = none ∧
    markerRendered (loadState data) = false ∧
    (∃ lat lng, (resetSimulation (loadState data)).pos = JsPos.record lat lng) ∧
    (2 ≤ data.length →
      ∃ lat lng, (tick (togglePlay (loadState data))).pos = JsPos.record lat lng) := by
  refine ⟨rfl, rfl, ?_, ?_, ?_⟩
  · simp [markerRendered, latField, loadState, initState]
  · refine ⟨(data.getD 0 dfltPoint).lat, (data.getD 0 dfltPoint).lng, ?_⟩
    simp only [resetSimulation, loadState, initState]
    rw [if_pos (List.length_pos.mpr h)]
  · intro h2
    have hg : (togglePlay (loadState data)).isPlaying = true ∧
        2 ≤ (togglePlay (loadState data)).route.length ∧
        (togglePlay (loadState data)).currentIndex + 1 <
          (togglePlay (loadState data)).route.length := by
      refine ⟨rfl, ?_, ?_⟩ <;> simp [togglePlay, loadState, initState] <;> omega
    simp only [tick]
    rw [if_pos hg, if_neg (by norm_num [togglePlay, loadState, initState, steps])]
    exact ⟨_, _, rfl⟩

/-- C9 witness: the load shape and the replacements on the scenario route. -/
theorem c9_load_stores_array_marker_hidden_witness :
    latField (loadState route2).pos = none ∧
    lngField (loadState route2).pos = none ∧
    markerRendered (loadState route2) = false ∧
    (∃ lat lng, (resetSimulation (loadState route2)).pos = JsPos.record lat lng) ∧
    (2 ≤ route2.length →
      ∃ lat lng, (tick (togglePlay (loadState route2))).pos = JsPos.record lat lng) :=
  c9_load_stores_array_marker_hidden route2 (by decide)
